import Mathlib

/-!
Shallow embedding of `ds_arpes_plugin/ds_arpes_plugin.py`.

The plugin is glue between an external data library (`arpys`: `dl.load_data`,
`pp.angle_to_k`, `pp.normalize_per_segment`) and an external viewer host
(`data_slicer` / PIT: a `data_handler` and a `main_window`).  The external
collaborators are not part of this repository; they enter the embedding as
function parameters (`Loader`, `AngleToK`, `SegNorm`) and as a minimal state
model of the host objects taken from the host contract listed in the spec.

Numeric scalars are modelled by `ℚ` (the claims under study are about control
flow, state updates and exact algebraic scaling, not about rounding).
`np.pi` is a parameter `piV` of the embedding.  1-D numpy arrays are `List ℚ`,
2-D meshes are `List (List ℚ)`, the stored 3-D volume is a triply nested list.
Python sequence indexing (negative indices, `IndexError`) is modelled by
`pyGet`/`pySet`.  `np.roll` applied to the triple of axis arrays is modelled
as a rotation of the outer list (the object-array case; this is the reading
the code relies on to recover the axes in logical order).
-/

namespace DsArpes

/-- Python exception kinds arising on the modelled code paths. -/
inductive PyErr where
  | datasetError (msg : String)
  | indexError (msg : String)
  | typeError (msg : String)
deriving DecidableEq, Repr

abbrev Scalar := ℚ
/-- 1-D numpy array. -/
abbrev Arr := List Scalar
/-- 2-D numpy array (list of rows). -/
abbrev Mesh := List (List Scalar)
/-- 3-D numpy array. -/
abbrev Volume := List (List (List Scalar))

/-- Normalize a Python sequence index: negative indices count from the end;
    out-of-range yields `none`. -/
def pyNormIdx (len : Nat) (i : Int) : Option Nat :=
  if 0 ≤ i then
    if i < (len : Int) then some i.toNat else none
  else
    if 0 ≤ i + (len : Int) then some (i + (len : Int)).toNat else none

/-- Python `xs[i]` on a sequence. -/
def pyGet {α : Type} (xs : List α) (i : Int) : Except PyErr α :=
  match pyNormIdx xs.length i with
  | some n =>
    match xs.get? n with
    | some v => .ok v
    | none => .error (.indexError ("index out of range"))
  | none => .error (.indexError ("index out of range"))

/-- Python `xs[i] = v` on a sequence. -/
def pySet {α : Type} (xs : List α) (i : Int) (v : α) : Except PyErr (List α) :=
  match pyNormIdx xs.length i with
  | some n => .ok (xs.set n v)
  | none => .error (.indexError ("assignment index out of range"))

/-- `np.roll(xs, s)` on the outer sequence: shift elements by `s` with
    wraparound.  `np.roll(xs, s)` equals a left rotation by `(-s) mod n`. -/
def npRoll {α : Type} (xs : List α) (s : Int) : List α :=
  if xs.length = 0 then xs
  else xs.rotate (((-s) % (xs.length : Int)).toNat)

/-- `KY[:, 0]`: the first entry of every row. -/
def column0 : Mesh → Except PyErr Arr
  | [] => .ok []
  | row :: rest =>
    match pyGet row 0 with
    | .error e => .error e
    | .ok x =>
      match column0 rest with
      | .error e => .error e
      | .ok xs => .ok (x :: xs)

/-- `arpys` dataset namespace: 3-D data, three coordinate scales, photon
    energy `hv` (the metadata the plugin reads). -/
structure Dataset where
  data : Volume
  xscale : Arr
  yscale : Arr
  zscale : Arr
  hv : Scalar
deriving DecidableEq, Repr

/-- A renderable plot of the host (`main_plot` / `cut_plot`): its displayed
    image and the colour lookup table applied to it. -/
structure Plot where
  image_data : Mesh
  lut : Nat
deriving DecidableEq, Repr

/-- Host main window, modelled from the contract the plugin consumes:
    the two plots, the current lookup table, a count of update signals
    emitted by `set_image(..., emit=True)`, and a count of `set_axes()`
    refreshes. -/
structure MainWindow where
  main_plot : Plot
  cut_plot : Plot
  lut : Nat
  emitted : Nat
  axes_refreshes : Nat
deriving DecidableEq, Repr

/-- Host data handler, modelled from the contract the plugin consumes:
    the original coordinate-axis triple, the internal `_roll_state` rotation
    offset, the current (mutable) axes, and the stored data volume. -/
structure DataHandler where
  original_axes : List Arr
  roll_state : Int
  axes : List Arr
  data : Volume
deriving DecidableEq, Repr

/-- The plugin state: optional loaded dataset `D` (absent before any
    successful `load_data`), recorded filename, and the host objects. -/
structure PluginState where
  D : Option Dataset
  filename : String
  data_handler : DataHandler
  main_window : MainWindow
deriving DecidableEq, Repr

/-- Host `data_handler.prepare_data(data, scales)`, modelled from the host
    contract: store the array and its per-axis coordinate arrays. -/
def DataHandler.prepare_data (dh : DataHandler) (d : Volume) (scales : List Arr) :
    DataHandler :=
  { dh with data := d, original_axes := scales, axes := scales }

/-- Host `data_handler.get_data()`. -/
def DataHandler.get_data (dh : DataHandler) : Volume := dh.data

/-- Host `data_handler.set_data(data)`. -/
def DataHandler.set_data (dh : DataHandler) (d : Volume) : DataHandler :=
  { dh with data := d }

/-- Host `main_window.set_image(data, emit=...)`: replace the main plot's
    image; an update signal is emitted exactly when `emit` is true. -/
def MainWindow.set_image (mw : MainWindow) (d : Mesh) (emit : Bool) : MainWindow :=
  { mw with main_plot := { mw.main_plot with image_data := d },
            emitted := if emit then mw.emitted + 1 else mw.emitted }

/-- Host `cut_plot.set_image(data, lut=...)`: replace the cut plot's image
    and apply the given lookup table. -/
def Plot.set_image (p : Plot) (d : Mesh) (lut : Nat) : Plot :=
  { p with image_data := d, lut := lut }

/-- Host `main_window.set_axes()`: refresh displayed axis ranges/labels. -/
def MainWindow.set_axes (mw : MainWindow) : MainWindow :=
  { mw with axes_refreshes := mw.axes_refreshes + 1 }

/-- `ARPES_Plugin._message`. -/
def _message : String := "No ARPES data has been found. Load data with `load_data()`."

/-- External `dl.load_data`: may raise whatever the library raises. -/
abbrev Loader := String → Except PyErr Dataset

/-- External `pp.angle_to_k(alpha, beta, hv, dalpha, dbeta, orientation,
    work_func) -> (KX, KY)`. -/
abbrev AngleToK := Arr → Arr → Scalar → Scalar → Scalar → String → Scalar → Mesh × Mesh

/-- External `pp.normalize_per_segment(array, dim)` on a 2-D array. -/
abbrev SegNorm := Mesh → Int → Mesh

/-- `ARPES_Plugin.load_data` (source lines 30-43): load via the data library,
    store the dataset as `D`, push `(data, [zscale, yscale, xscale])` into the
    host data handler, record the filename, return the dataset. -/
def load_data (dlLoad : Loader) (s : PluginState) (filename : String) :
    PluginState × Except PyErr Dataset :=
  match dlLoad filename with
  | .error e => (s, .error e)
  | .ok D =>
    let s1 : PluginState := { s with D := some D }
    let s2 : PluginState := { s1 with data_handler :=
      (s1.data_handler.prepare_data D.data [D.zscale, D.yscale, D.xscale]) }
    let s3 : PluginState := { s2 with filename := filename }
    (s3, .ok D)

/-- `ARPES_Plugin.load`: convenience alias for `load_data`. -/
def load (dlLoad : Loader) (s : PluginState) (filename : String) :
    PluginState × Except PyErr Dataset :=
  load_data dlLoad s filename

/-- `ARPES_Plugin.open`: convenience alias for `load_data`. -/
def «open» (dlLoad : Loader) (s : PluginState) (filename : String) :
    PluginState × Except PyErr Dataset :=
  load_data dlLoad s filename

/-- `ARPES_Plugin._check_for_arpes_data`: raise `DatasetError` if no dataset
    has been loaded (`hasattr(self, 'D')` is false). -/
def _check_for_arpes_data (s : PluginState) : Except PyErr Unit :=
  match s.D with
  | none => .error (.datasetError _message)
  | some _ => .ok ()

/-- Keyword arguments of `a2k` with their source defaults. -/
structure A2kArgs where
  alpha_axis : Int
  beta_axis : Option Int := none
  dalpha : Scalar := 0
  dbeta : Scalar := 0
  orientation : String := "horizontal"
  work_func : Scalar := 4
  units : Scalar := 0
  hv : Option Scalar := none

/-- `axes = np.roll(self.data_handler.original_axes, -self.data_handler._roll_state)`
    (source lines 112-114). -/
def rolledAxes (s : PluginState) : List Arr :=
  npRoll s.data_handler.original_axes (-(s.data_handler.roll_state))

/-- Beta-array selection (source lines 116-119): `axes[beta_axis]` when
    `beta_axis` is given, else the placeholder `np.array([0])`. -/
def betaSel (s : PluginState) (args : A2kArgs) : Except PyErr Arr :=
  match args.beta_axis with
  | some b => pyGet (rolledAxes s) b
  | none => .ok [0]

/-- Unit rescaling (source lines 127-129): divide by `np.pi/units` when
    `units != 0`. -/
def applyUnits (piV units : Scalar) (m : Mesh) : Mesh :=
  if units ≠ 0 then m.map (List.map (fun x => x / (piV / units))) else m

/-- The skip test of the reset loop (source line 141):
    `i not in [alpha_axis, beta_axis]` negated. -/
def skipCond (a : Int) (b : Option Int) (i : Int) : Bool :=
  i == a || (match b with | some bb => i == bb | none => false)

/-- The axis-reset loop (source lines 140-142): for each remaining loop index,
    if it is neither `alpha_axis` nor `beta_axis`, write the rolled original
    axis back into the handler's axes.  Returns the axes as mutated so far
    together with the first error, if any (a failing iteration keeps the
    writes of earlier iterations, as in Python). -/
def resetFold (rolled : List Arr) (a : Int) (b : Option Int) :
    List Int → List Arr → List Arr × Option PyErr
  | [], axs => (axs, none)
  | i :: rest, axs =>
    if skipCond a b i then
      resetFold rolled a b rest axs
    else
      match pyGet rolled i with
      | .error e => (axs, some e)
      | .ok v =>
        match pySet axs i v with
        | .error e => (axs, some e)
        | .ok axs1 => resetFold rolled a b rest axs1

/-- The beta-axis write of `a2k` (source lines 134-136): when `beta_axis` is
    given, `new_beta = KX[0]` is written at `beta_axis`; otherwise the axes
    are left as they are. -/
def betaWrite (bax : Option Int) (KX : Mesh) (axs : List Arr) :
    Except PyErr (List Arr) :=
  match bax with
  | none => .ok axs
  | some b =>
    match pyGet KX 0 with
    | .error e => .error e
    | .ok new_beta => pySet axs b new_beta

/-- `ARPES_Plugin.a2k` (source lines 68-147).  `angle_to_k` is the external
    transform, `piV` the value of `np.pi`.  Returns the post-call state and
    either the `(KX, KY)` meshes or the Python exception raised; on an
    exception the state holds the mutations made before the raise. -/
def a2k (angle_to_k : AngleToK) (piV : Scalar) (s : PluginState) (args : A2kArgs) :
    PluginState × Except PyErr (Mesh × Mesh) :=
  -- self._check_for_arpes_data()
  match s.D with
  | none => (s, .error (.datasetError _message))
  | some D =>
    -- fetch correct axes
    let axes := rolledAxes s
    match pyGet axes args.alpha_axis with
    | .error e => (s, .error e)
    | .ok alpha =>
      match betaSel s args with
      | .error e => (s, .error e)
      | .ok beta =>
        -- if hv is None: hv = self.D.hv
        let hv := args.hv.getD D.hv
        -- KX, KY = pp.angle_to_k(...)
        let KXY := angle_to_k alpha beta hv args.dalpha args.dbeta
          args.orientation args.work_func
        -- if units != 0: KX /= (np.pi/units); KY /= (np.pi/units)
        let KX := applyUnits piV args.units KXY.1
        let KY := applyUnits piV args.units KXY.2
        -- new_alpha = KY[:, 0]
        match column0 KY with
        | .error e => (s, .error e)
        | .ok new_alpha =>
          -- self.data_handler.axes[alpha_axis] = new_alpha
          match pySet s.data_handler.axes args.alpha_axis new_alpha with
          | .error e => (s, .error e)
          | .ok axs1 =>
            -- if beta_axis is not None: new_beta = KX[0]; axes[beta_axis] = new_beta
            match betaWrite args.beta_axis KX axs1 with
            | .error e =>
              ({ s with data_handler := { s.data_handler with axes := axs1 } }, .error e)
            | .ok axs2 =>
              -- reset all unaffected axes
              let rr := resetFold axes args.alpha_axis args.beta_axis [0, 1, 2] axs2
              match rr.2 with
              | some e =>
                ({ s with data_handler := { s.data_handler with axes := rr.1 } }, .error e)
              | none =>
                -- self.main_window.set_axes()
                ({ s with data_handler := { s.data_handler with axes := rr.1 },
                          main_window := s.main_window.set_axes }, .ok (KX, KY))

/-- `ARPES_Plugin.main_plot_normalize_per_segment` (source lines 149-163):
    normalize the main plot's displayed image and push it back with
    `emit=False`.  No dataset guard is performed. -/
def main_plot_normalize_per_segment (segNorm : SegNorm) (s : PluginState)
    (dim : Int) (min : Bool) : PluginState × Except PyErr Unit :=
  let data := s.main_window.main_plot.image_data
  let norm_data := segNorm data dim
  ({ s with main_window := s.main_window.set_image norm_data false }, .ok ())

/-- `ARPES_Plugin.cut_plot_normalize_per_segment` (source lines 165-180):
    normalize the cut plot's displayed image and push it back with the
    current lookup table.  No dataset guard is performed. -/
def cut_plot_normalize_per_segment (segNorm : SegNorm) (s : PluginState)
    (dim : Int) (min : Bool) : PluginState × Except PyErr Unit :=
  let data := s.main_window.cut_plot.image_data
  let norm_data := segNorm data dim
  ({ s with main_window := { s.main_window with
      cut_plot := s.main_window.cut_plot.set_image norm_data s.main_window.lut } },
   .ok ())

/-- `data.shape[-1]` of the stored 3-D volume: the extent of the last axis. -/
def shapeLast (v : Volume) : Nat :=
  match v with
  | [] => 0
  | plane :: _ =>
    match plane with
    | [] => 0
    | row :: _ => row.length

/-- `data[:, :, z]`. -/
def sliceZ (v : Volume) (z : Nat) : Mesh :=
  v.map (fun plane => plane.map (fun row => row.getD z 0))

/-- Python `for z in e` requires `e` to be iterable; `data.shape[-1]` is a
    plain `int`, and iterating over an `int` raises `TypeError`. -/
def pyIterInt (_n : Nat) : Except PyErr (List Nat) :=
  .error (.typeError ("int object is not iterable"))

/-- `ARPES_Plugin.normalize_per_segment` (source lines 182-198): fetch the
    stored volume and run `for z in data.shape[-1]` — which raises
    `TypeError`, since `data.shape[-1]` is an `int`, before any slice is
    processed.  The loop body (normalize each slice, result discarded) and
    the final `set_data` are modelled but unreachable. -/
def normalize_per_segment (segNorm : SegNorm) (s : PluginState)
    (dim : Int) (min : Bool) : PluginState × Except PyErr Unit :=
  let data := s.data_handler.get_data
  match pyIterInt (shapeLast data) with
  | .error e => (s, .error e)
  | .ok zs =>
    -- for z in ...: pp.normalize_per_segment(data[:,:,z], dim=dim)
    -- (per-slice results are not reassigned in the source)
    let _ := zs.map (fun z => segNorm (sliceZ data z) dim)
    ({ s with data_handler := s.data_handler.set_data data }, .ok ())

/-- A plugin method invocation, carrying the external collaborators it uses. -/
inductive Op where
  | loadDataOp (dlLoad : Loader) (filename : String)
  | loadOp (dlLoad : Loader) (filename : String)
  | openOp (dlLoad : Loader) (filename : String)
  | a2kOp (angle_to_k : AngleToK) (piV : Scalar) (args : A2kArgs)
  | mainNormOp (segNorm : SegNorm) (dim : Int) (min : Bool)
  | cutNormOp (segNorm : SegNorm) (dim : Int) (min : Bool)
  | normOp (segNorm : SegNorm) (dim : Int) (min : Bool)

/-- The state after invoking one plugin method (whether or not it raised). -/
def Op.apply (op : Op) (s : PluginState) : PluginState :=
  match op with
  | .loadDataOp l fn => (load_data l s fn).1
  | .loadOp l fn => (load l s fn).1
  | .openOp l fn => («open» l s fn).1
  | .a2kOp f piV args => (a2k f piV s args).1
  | .mainNormOp g dim m => (main_plot_normalize_per_segment g s dim m).1
  | .cutNormOp g dim m => (cut_plot_normalize_per_segment g s dim m).1
  | .normOp g dim m => (normalize_per_segment g s dim m).1

/-- The state after a sequence of plugin method invocations. -/
def run (ops : List Op) (s : PluginState) : PluginState :=
  ops.foldl (fun st op => op.apply st) s

/-! ### Concrete sample data used by witnesses and counterexamples -/

/-- A small concrete dataset (3-D data of shape 2x2x2). -/
def exDataset : Dataset :=
  { data := [[[1, 2], [3, 4]], [[5, 6], [7, 8]]], xscale := [0, 1],
    yscale := [0, 1], zscale := [0, 1], hv := 21 }

def exDataHandler : DataHandler :=
  { original_axes := [[10, 11], [20, 21], [30, 31]], roll_state := 0,
    axes := [[10, 11], [20, 21], [30, 31]],
    data := [[[1, 2], [3, 4]], [[5, 6], [7, 8]]] }

def exMainWindow : MainWindow :=
  { main_plot := { image_data := [[1, 2], [3, 4]], lut := 0 },
    cut_plot := { image_data := [[5]], lut := 0 }, lut := 7,
    emitted := 0, axes_refreshes := 0 }

/-- Plugin state before any `load_data`. -/
def exUnloaded : PluginState :=
  { D := none, filename := "<missing filename>",
    data_handler := exDataHandler, main_window := exMainWindow }

/-- Plugin state after a successful load. -/
def exLoaded : PluginState := { exUnloaded with D := some exDataset }

/-- A concrete stand-in for the external `pp.angle_to_k`. -/
def exAngleToK : AngleToK :=
  fun _ _ _ _ _ _ _ => ([[1, 2], [3, 4]], [[5, 6], [7, 8]])

/-- A second stand-in transform: agrees with `exAngleToK` exactly on the
    alpha array `[10, 11]` and differs everywhere else. -/
def exAngleToK2 : AngleToK :=
  fun a _ _ _ _ _ _ =>
    if a = [10, 11] then ([[1, 2], [3, 4]], [[5, 6], [7, 8]]) else ([[9]], [[9]])

/-- A concrete stand-in for the external `pp.normalize_per_segment`. -/
def exSegNorm : SegNorm := fun m _ => m.map (List.map (fun x => x + 1))

def exLoader : Loader := fun _ => .ok exDataset

/-- Post-state of `a2k(alpha_axis=0)` on the sample state. -/
def exPost0 : PluginState := (a2k exAngleToK 3 exLoaded { alpha_axis := 0 }).1

/-- Post-state of `a2k(alpha_axis=0, beta_axis=1)` on the sample state. -/
def exPost01 : PluginState :=
  (a2k exAngleToK 3 exLoaded { alpha_axis := 0, beta_axis := some 1 }).1

/-- A sample sequence of method invocations after loading. -/
def exOps : List Op :=
  [Op.mainNormOp exSegNorm 0 false, Op.a2kOp exAngleToK 3 { alpha_axis := 0 },
   Op.cutNormOp exSegNorm 0 true, Op.normOp exSegNorm 0 false]

/-! ### Helper lemmas on the Python-sequence primitives -/

lemma pyGet_error_eq {α : Type} {xs : List α} {i : Int} {e : PyErr}
    (h : pyGet xs i = .error e) : e = .indexError "index out of range" := by
  unfold pyGet at h
  split at h
  · split at h
    · exact Except.noConfusion h
    · injection h with h; exact h.symm
  · injection h with h; exact h.symm

lemma pySet_error_eq {α : Type} {xs : List α} {i : Int} {v : α} {e : PyErr}
    (h : pySet xs i v = .error e) : e = .indexError "assignment index out of range" := by
  unfold pySet at h
  split at h
  · exact Except.noConfusion h
  · injection h with h; exact h.symm

lemma pySet_eq_ok {α : Type} {xs ys : List α} {i : Int} {v : α}
    (h : pySet xs i v = .ok ys) :
    ∃ n, pyNormIdx xs.length i = some n ∧ ys = xs.set n v := by
  unfold pySet at h
  split at h
  · next n hn => exact ⟨n, hn, by injection h with h; exact h.symm⟩
  · exact Except.noConfusion h

lemma pySet_length {α : Type} {xs ys : List α} {i : Int} {v : α}
    (h : pySet xs i v = .ok ys) : ys.length = xs.length := by
  obtain ⟨n, _, rfl⟩ := pySet_eq_ok h
  exact List.length_set xs n v

lemma pyNormIdx_nonneg {len : Nat} {i : Int} {n : Nat}
    (hi : 0 ≤ i) (h : pyNormIdx len i = some n) :
    n = i.toNat ∧ i < (len : Int) := by
  unfold pyNormIdx at h
  rw [if_pos hi] at h
  split at h
  · next hlt => exact ⟨(Option.some.injEq .. ▸ h).symm, hlt⟩
  · exact Option.noConfusion h

lemma pyNormIdx_of_nonneg_lt {len : Nat} {i : Int}
    (hi : 0 ≤ i) (hlt : i < (len : Int)) : pyNormIdx len i = some i.toNat := by
  unfold pyNormIdx
  rw [if_pos hi, if_pos hlt]

/-- Reading a nonnegative index other than the one just set is unchanged. -/
lemma pyGet_set_ne {α : Type} (xs : List α) (n : Nat) (v : α) (i : Int)
    (hi : 0 ≤ i) (hne : i.toNat ≠ n) : pyGet (xs.set n v) i = pyGet xs i := by
  unfold pyGet
  rw [List.length_set]
  rcases hn : pyNormIdx xs.length i with _ | m
  · rfl
  · obtain ⟨rfl, _⟩ := pyNormIdx_nonneg hi hn
    dsimp only
    rw [List.get?_set_ne _ _ (Ne.symm hne)]

/-- Reading back the nonnegative index just set yields the new value. -/
lemma pyGet_set_self {α : Type} (xs : List α) (n : Nat) (v : α) (i : Int)
    (hi : 0 ≤ i) (heq : i.toNat = n) (hlt : n < xs.length) :
    pyGet (xs.set n v) i = .ok v := by
  unfold pyGet
  rw [List.length_set]
  rw [pyNormIdx_of_nonneg_lt hi (by omega : i < (xs.length : Int))]
  dsimp only
  rw [heq, List.get?_set_eq_of_lt _ hlt]

lemma pyGet_pySet_self {α : Type} {xs ys : List α} {i : Int} {v : α}
    (hi : 0 ≤ i) (h : pySet xs i v = .ok ys) : pyGet ys i = .ok v := by
  obtain ⟨n, hn, rfl⟩ := pySet_eq_ok h
  obtain ⟨rfl, hlt⟩ := pyNormIdx_nonneg hi hn
  exact pyGet_set_self xs _ v i hi rfl (by omega)

lemma pyGet_pySet_ne {α : Type} {xs ys : List α} {i j : Int} {v : α}
    (hi : 0 ≤ i) (hj : 0 ≤ j) (hne : i ≠ j)
    (h : pySet xs j v = .ok ys) : pyGet ys i = pyGet xs i := by
  obtain ⟨n, hn, rfl⟩ := pySet_eq_ok h
  obtain ⟨rfl, _⟩ := pyNormIdx_nonneg hj hn
  exact pyGet_set_ne xs _ v i hi (by omega)

/-- `pyGet` on a mapped list. -/
lemma pyGet_map {α β : Type} (g : α → β) (xs : List α) (i : Int) :
    pyGet (xs.map g) i = Except.map g (pyGet xs i) := by
  unfold pyGet
  rw [List.length_map]
  rcases hn : pyNormIdx xs.length i with _ | m
  · rfl
  · dsimp only
    rw [List.get?_map]
    rcases xs.get? m with _ | x <;> rfl

/-- Whether `pySet` succeeds depends only on the length of the list. -/
lemma pySet_error_congr {α : Type} {xs₁ xs₂ : List α} (i : Int) (v₁ v₂ : α)
    (hlen : xs₁.length = xs₂.length) {e : PyErr}
    (h : pySet xs₁ i v₁ = .error e) : pySet xs₂ i v₂ = .error e := by
  unfold pySet at h ⊢
  rw [← hlen]
  split at h
  · exact Except.noConfusion h
  · exact h

lemma pySet_ok_congr {α : Type} {xs₁ xs₂ : List α} {ys₁ : List α} (i : Int) (v₁ v₂ : α)
    (hlen : xs₁.length = xs₂.length)
    (h : pySet xs₁ i v₁ = .ok ys₁) :
    ∃ ys₂, pySet xs₂ i v₂ = .ok ys₂ ∧ ys₂.length = ys₁.length := by
  obtain ⟨n, hn, rfl⟩ := pySet_eq_ok h
  refine ⟨xs₂.set n v₂, ?_, by simp [hlen]⟩
  unfold pySet
  rw [← hlen, hn]

/-! ### Lemmas on `column0`, `betaSel`, `betaWrite`, `applyUnits` -/

lemma column0_error_eq : ∀ {m : Mesh} {e : PyErr}, column0 m = .error e →
    e = .indexError "index out of range" := by
  intro m
  induction m with
  | nil => intro e h; exact Except.noConfusion h
  | cons row rest ih =>
    intro e h
    unfold column0 at h
    cases hg : pyGet row 0 with
    | error eg =>
      simp only [hg] at h
      injection h with h
      rw [← h]; exact pyGet_error_eq hg
    | ok x =>
      simp only [hg] at h
      cases hc : column0 rest with
      | error ec =>
        simp only [hc] at h
        injection h with h
        rw [← h]; exact ih hc
      | ok xs => simp only [hc] at h; exact Except.noConfusion h

lemma column0_map (g : Scalar → Scalar) : ∀ (m : Mesh),
    column0 (m.map (List.map g)) = Except.map (List.map g) (column0 m) := by
  intro m
  induction m with
  | nil => rfl
  | cons row rest ih =>
    simp only [List.map_cons]
    unfold column0
    rw [pyGet_map g row 0]
    cases hg : pyGet row 0 with
    | error e => simp [hg, Except.map]
    | ok x =>
      cases hc : column0 rest with
      | error e2 => simp [hg, hc, ih, Except.map]
      | ok xs => simp [hg, hc, ih, Except.map]

lemma betaSel_error_eq {s : PluginState} {args : A2kArgs} {e : PyErr}
    (h : betaSel s args = .error e) : e = .indexError "index out of range" := by
  unfold betaSel at h
  cases hb : args.beta_axis with
  | none => rw [hb] at h; exact Except.noConfusion h
  | some b => rw [hb] at h; exact pyGet_error_eq h

lemma betaWrite_error_eq {bax : Option Int} {KX : Mesh} {axs : List Arr} {e : PyErr}
    (h : betaWrite bax KX axs = .error e) : ∃ msg, e = .indexError msg := by
  unfold betaWrite at h
  cases bax with
  | none => exact Except.noConfusion h
  | some b =>
    cases hg : pyGet KX 0 with
    | error e2 =>
      simp only [hg] at h
      injection h with h
      exact ⟨_, by rw [← h]; exact pyGet_error_eq hg⟩
    | ok nb =>
      simp only [hg] at h
      exact ⟨_, pySet_error_eq h⟩

lemma betaWrite_length {bax : Option Int} {KX : Mesh} {axs axs' : List Arr}
    (h : betaWrite bax KX axs = .ok axs') : axs'.length = axs.length := by
  unfold betaWrite at h
  cases bax with
  | none => injection h with h; rw [← h]
  | some b =>
    cases hg : pyGet KX 0 with
    | error e2 => simp only [hg] at h; exact Except.noConfusion h
    | ok nb => simp only [hg] at h; exact pySet_length h

/-- `units = 0`: the meshes are returned unscaled. -/
lemma applyUnits_zero (piV : Scalar) (m : Mesh) : applyUnits piV 0 m = m := by
  unfold applyUnits
  rw [if_neg (by simp)]

lemma applyUnits_ne (piV U : Scalar) (h : U ≠ 0) (m : Mesh) :
    applyUnits piV U m = m.map (List.map (fun x => x / (piV / U))) := by
  unfold applyUnits
  rw [if_pos h]

/-- Scaling the `KX` mesh elementwise does not change whether the beta write
    succeeds; the resulting axes have the same length. -/
lemma betaWrite_scaled (g : Scalar → Scalar) {bax : Option Int} {KX : Mesh}
    {axs axsB axs' : List Arr} (hlen : axsB.length = axs.length)
    (h : betaWrite bax KX axs = .ok axs') :
    ∃ axsB', betaWrite bax (KX.map (List.map g)) axsB = .ok axsB' ∧
      axsB'.length = axs'.length := by
  unfold betaWrite at h ⊢
  cases bax with
  | none =>
    injection h with h
    exact ⟨axsB, rfl, by rw [hlen, h]⟩
  | some b =>
    rw [pyGet_map (List.map g) KX 0]
    cases hg : pyGet KX 0 with
    | error e =>
      rw [hg] at h
      exact Except.noConfusion h
    | ok rb =>
      rw [hg] at h
      simp only [Except.map]
      exact pySet_ok_congr b rb (List.map g rb) hlen.symm h

/-! ### Lemmas on the axis-reset loop -/

lemma ne_of_skipCond {a : Int} {b : Option Int} {i j : Int}
    (hi : skipCond a b i = true) (hj : skipCond a b j = false) : j ≠ i := by
  intro h
  rw [h, hi] at hj
  exact Bool.noConfusion hj

lemma skipCond_left (a : Int) (b : Option Int) : skipCond a b a = true := by
  simp [skipCond]

lemma skipCond_right (a : Int) (b : Int) : skipCond a (some b) b = true := by
  simp [skipCond]

/-- Indices that no iteration of the reset loop writes keep their reading. -/
lemma resetFold_preserve {r : List Arr} {a : Int} {b : Option Int} :
    ∀ (l : List Int) (axs axs' : List Arr) (err : Option PyErr),
    (∀ j ∈ l, 0 ≤ j) → ∀ i : Int, 0 ≤ i →
    (∀ j ∈ l, skipCond a b j = false → j ≠ i) →
    resetFold r a b l axs = (axs', err) →
    pyGet axs' i = pyGet axs i := by
  intro l
  induction l with
  | nil =>
    intro axs axs' err _ i _ _ h
    unfold resetFold at h
    injection h with h1 _
    rw [← h1]
  | cons j rest ih =>
    intro axs axs' err hnn i hi hno h
    unfold resetFold at h
    by_cases hs : skipCond a b j = true
    · rw [if_pos hs] at h
      exact ih axs axs' err (fun k hk => hnn k (List.mem_cons_of_mem _ hk)) i hi
        (fun k hk hkf => hno k (List.mem_cons_of_mem _ hk) hkf) h
    · rw [Bool.not_eq_true] at hs
      simp only [hs, Bool.false_eq_true, if_false] at h
      cases hg : pyGet r j with
      | error e =>
        simp only [hg] at h
        injection h with h1 _
        rw [← h1]
      | ok v =>
        simp only [hg] at h
        cases hset : pySet axs j v with
        | error e =>
          simp only [hset] at h
          injection h with h1 _
          rw [← h1]
        | ok axs1 =>
          simp only [hset] at h
          have hji : j ≠ i := hno j (List.mem_cons_self j rest) hs
          have hrec : pyGet axs' i = pyGet axs1 i :=
            ih axs1 axs' err (fun k hk => hnn k (List.mem_cons_of_mem _ hk)) i hi
              (fun k hk hkf => hno k (List.mem_cons_of_mem _ hk) hkf) h
          rw [hrec,
            pyGet_pySet_ne hi (hnn j (List.mem_cons_self j rest)) (Ne.symm hji) hset]

/-- Every write of the reset loop writes the rolled original axis, and loop
    indices are visited once: an index that is visited and not skipped ends
    holding the rolled original value. -/
lemma resetFold_write {r : List Arr} {a : Int} {b : Option Int} :
    ∀ (l : List Int) (axs axs' : List Arr),
    (∀ j ∈ l, 0 ≤ j) → l.Nodup → ∀ i : Int, i ∈ l → skipCond a b i = false →
    resetFold r a b l axs = (axs', none) →
    pyGet axs' i = pyGet r i := by
  intro l
  induction l with
  | nil => intro _ _ _ _ i hi; exact absurd hi (List.not_mem_nil i)
  | cons j rest ih =>
    intro axs axs' hnn hnd i hmem hskip h
    unfold resetFold at h
    by_cases hs : skipCond a b j = true
    · rw [if_pos hs] at h
      have hij : i ≠ j := by
        intro hh
        rw [hh, hs] at hskip
        exact Bool.noConfusion hskip
      have hmem' : i ∈ rest := by
        rcases List.mem_cons.mp hmem with h1 | h1
        · exact absurd h1 hij
        · exact h1
      exact ih axs axs' (fun k hk => hnn k (List.mem_cons_of_mem _ hk))
        (List.Nodup.of_cons hnd) i hmem' hskip h
    · rw [Bool.not_eq_true] at hs
      simp only [hs, Bool.false_eq_true, if_false] at h
      cases hg : pyGet r j with
      | error e =>
        simp only [hg] at h
        injection h with _ h2
        exact Option.noConfusion h2
      | ok v =>
        simp only [hg] at h
        cases hset : pySet axs j v with
        | error e =>
          simp only [hset] at h
          injection h with _ h2
          exact Option.noConfusion h2
        | ok axs1 =>
          simp only [hset] at h
          rcases List.mem_cons.mp hmem with rfl | hmem'
          · have hj0 : 0 ≤ i := hnn i (List.mem_cons_self i rest)
            have hnotin : i ∉ rest := (List.nodup_cons.mp hnd).1
            have hpre : pyGet axs' i = pyGet axs1 i :=
              resetFold_preserve rest axs1 axs' none
                (fun k hk => hnn k (List.mem_cons_of_mem _ hk)) i hj0
                (fun k hk _ hki => hnotin (hki ▸ hk)) h
            rw [hpre, pyGet_pySet_self hj0 hset, hg]
          · exact ih axs1 axs' (fun k hk => hnn k (List.mem_cons_of_mem _ hk))
              (List.Nodup.of_cons hnd) i hmem' hskip h

/-- Errors escaping the reset loop are IndexErrors. -/
lemma resetFold_error_eq {r : List Arr} {a : Int} {b : Option Int} :
    ∀ (l : List Int) (axs axs' : List Arr) {e : PyErr},
    resetFold r a b l axs = (axs', some e) → ∃ msg, e = .indexError msg := by
  intro l
  induction l with
  | nil =>
    intro axs axs' e h
    unfold resetFold at h
    injection h with _ h2
    exact Option.noConfusion h2
  | cons j rest ih =>
    intro axs axs' e h
    unfold resetFold at h
    by_cases hs : skipCond a b j = true
    · rw [if_pos hs] at h
      exact ih axs axs' h
    · rw [Bool.not_eq_true] at hs
      simp only [hs, Bool.false_eq_true, if_false] at h
      cases hg : pyGet r j with
      | error e2 =>
        simp only [hg] at h
        injection h with _ h2
        injection h2 with h2
        exact ⟨_, by rw [← h2]; exact pyGet_error_eq hg⟩
      | ok v =>
        simp only [hg] at h
        cases hset : pySet axs j v with
        | error e2 =>
          simp only [hset] at h
          injection h with _ h2
          injection h2 with h2
          exact ⟨_, by rw [← h2]; exact pySet_error_eq hset⟩
        | ok axs1 =>
          simp only [hset] at h
          exact ih axs1 axs' h

/-- The reset loop never changes the length of the axes list. -/
lemma resetFold_length {r : List Arr} {a : Int} {b : Option Int} :
    ∀ (l : List Int) (axs : List Arr),
    (resetFold r a b l axs).1.length = axs.length := by
  intro l
  induction l with
  | nil => intro axs; rfl
  | cons j rest ih =>
    intro axs
    unfold resetFold
    by_cases hs : skipCond a b j = true
    · rw [if_pos hs]; exact ih axs
    · rw [Bool.not_eq_true] at hs
      simp only [hs, Bool.false_eq_true, if_false]
      cases hg : pyGet r j with
      | error e => simp only [hg]
      | ok v =>
        simp only [hg]
        cases hset : pySet axs j v with
        | error e => simp only [hset]
        | ok axs1 =>
          simp only [hset]
          rw [ih axs1, pySet_length hset]

/-- Success or failure of the reset loop depends only on the length of the
    incoming axes list, not on its contents. -/
lemma resetFold_congr {r : List Arr} {a : Int} {b : Option Int} :
    ∀ (l : List Int) (axs₁ axs₂ : List Arr), axs₁.length = axs₂.length →
    (resetFold r a b l axs₁).2 = (resetFold r a b l axs₂).2 := by
  intro l
  induction l with
  | nil => intro _ _ _; rfl
  | cons j rest ih =>
    intro axs₁ axs₂ hlen
    unfold resetFold
    by_cases hs : skipCond a b j = true
    · simp only [hs, if_true]
      exact ih axs₁ axs₂ hlen
    · rw [Bool.not_eq_true] at hs
      simp only [hs, Bool.false_eq_true, if_false]
      cases hg : pyGet r j with
      | error e => simp only [hg]
      | ok v =>
        simp only [hg]
        cases hset : pySet axs₁ j v with
        | error e =>
          have hset₂ := pySet_error_congr j v v hlen hset
          simp [hset, hset₂]
        | ok ys₁ =>
          obtain ⟨ys₂, hset₂, hlen₂⟩ := pySet_ok_congr j v v hlen hset
          simp only [hset, hset₂]
          exact ih ys₁ ys₂ hlen₂.symm

/-! ### Inversion of a successful `a2k` call -/

/-- A successful `a2k` call decomposes into its source steps: the guard found
    a dataset, the alpha/beta arrays were selected from the rolled axes, the
    meshes are the (unit-scaled) transform output, the alpha write, the beta
    write and the reset loop all succeeded, and the final state carries the
    reset axes and one more `set_axes` refresh. -/
lemma a2k_ok_inversion {f : AngleToK} {piV : Scalar} {s : PluginState}
    {args : A2kArgs} {s' : PluginState} {KX KY : Mesh}
    (h : a2k f piV s args = (s', .ok (KX, KY))) :
    ∃ (D : Dataset) (alpha beta new_alpha : Arr) (axs1 axs2 : List Arr),
      s.D = some D ∧
      pyGet (rolledAxes s) args.alpha_axis = .ok alpha ∧
      betaSel s args = .ok beta ∧
      KX = applyUnits piV args.units
        (f alpha beta (args.hv.getD D.hv) args.dalpha args.dbeta
          args.orientation args.work_func).1 ∧
      KY = applyUnits piV args.units
        (f alpha beta (args.hv.getD D.hv) args.dalpha args.dbeta
          args.orientation args.work_func).2 ∧
      column0 KY = .ok new_alpha ∧
      pySet s.data_handler.axes args.alpha_axis new_alpha = .ok axs1 ∧
      betaWrite args.beta_axis KX axs1 = .ok axs2 ∧
      (resetFold (rolledAxes s) args.alpha_axis args.beta_axis [0, 1, 2] axs2).2
        = none ∧
      s' = { s with
        data_handler := { s.data_handler with
          axes := (resetFold (rolledAxes s) args.alpha_axis args.beta_axis
            [0, 1, 2] axs2).1 },
        main_window := s.main_window.set_axes } := by
  cases hD : s.D with
  | none =>
    simp only [a2k, hD] at h
    injection h with _ h2
    exact Except.noConfusion h2
  | some D =>
    simp only [a2k, hD] at h
    cases hα : pyGet (rolledAxes s) args.alpha_axis with
    | error e =>
      simp only [hα] at h
      injection h with _ h2
      exact Except.noConfusion h2
    | ok alpha =>
      simp only [hα] at h
      cases hβ : betaSel s args with
      | error e =>
        simp only [hβ] at h
        injection h with _ h2
        exact Except.noConfusion h2
      | ok beta =>
        simp only [hβ] at h
        cases hc : column0 (applyUnits piV args.units
            (f alpha beta (args.hv.getD D.hv) args.dalpha args.dbeta
              args.orientation args.work_func).2) with
        | error e =>
          simp only [hc] at h
          injection h with _ h2
          exact Except.noConfusion h2
        | ok new_alpha =>
          simp only [hc] at h
          cases hset : pySet s.data_handler.axes args.alpha_axis new_alpha with
          | error e =>
            simp only [hset] at h
            injection h with _ h2
            exact Except.noConfusion h2
          | ok axs1 =>
            simp only [hset] at h
            cases hbw : betaWrite args.beta_axis (applyUnits piV args.units
                (f alpha beta (args.hv.getD D.hv) args.dalpha args.dbeta
                  args.orientation args.work_func).1) axs1 with
            | error e =>
              simp only [hbw] at h
              injection h with _ h2
              exact Except.noConfusion h2
            | ok axs2 =>
              simp only [hbw] at h
              cases hr : (resetFold (rolledAxes s) args.alpha_axis args.beta_axis
                  [0, 1, 2] axs2).2 with
              | some e =>
                simp only [hr] at h
                injection h with _ h2
                exact Except.noConfusion h2
              | none =>
                simp only [hr] at h
                injection h with h1 h2
                injection h2 with h2
                injection h2 with hKX hKY
                refine ⟨D, alpha, beta, new_alpha, axs1, axs2, rfl, rfl, rfl,
                  hKX.symm, hKY.symm, ?_, hset, ?_, hr, h1.symm⟩
                · rw [hKY] at hc; exact hc
                · rw [hKX] at hbw; exact hbw

/-- `a2k` never changes the loaded dataset `D`. -/
lemma a2k_fst_D (f : AngleToK) (piV : Scalar) (s : PluginState) (args : A2kArgs) :
    ((a2k f piV s args).1).D = s.D := by
  cases hD : s.D with
  | none => simp only [a2k, hD]
  | some D =>
    simp only [a2k, hD]
    cases hα : pyGet (rolledAxes s) args.alpha_axis with
    | error e => exact hD
    | ok alpha =>
      dsimp only
      cases hβ : betaSel s args with
      | error e => exact hD
      | ok beta =>
        dsimp only
        cases hc : column0 (applyUnits piV args.units
            (f alpha beta (args.hv.getD D.hv) args.dalpha args.dbeta
              args.orientation args.work_func).2) with
        | error e => exact hD
        | ok new_alpha =>
          dsimp only
          cases hset : pySet s.data_handler.axes args.alpha_axis new_alpha with
          | error e => exact hD
          | ok axs1 =>
            dsimp only
            cases hbw : betaWrite args.beta_axis (applyUnits piV args.units
                (f alpha beta (args.hv.getD D.hv) args.dalpha args.dbeta
                  args.orientation args.work_func).1) axs1 with
            | error e => rfl
            | ok axs2 =>
              dsimp only
              cases hr : (resetFold (rolledAxes s) args.alpha_axis args.beta_axis
                  [0, 1, 2] axs2).2 with
              | some e => rfl
              | none => rfl

/-- With a dataset loaded, every exception `a2k` raises is an IndexError
    (from an axis lookup or axis write), never a DatasetError. -/
lemma a2k_error_eq {f : AngleToK} {piV : Scalar} {s : PluginState}
    {args : A2kArgs} {D : Dataset} {e : PyErr} (hD : s.D = some D)
    (h : (a2k f piV s args).2 = .error e) : ∃ msg, e = .indexError msg := by
  simp only [a2k, hD] at h
  cases hα : pyGet (rolledAxes s) args.alpha_axis with
  | error e2 =>
    simp only [hα] at h
    injection h with h
    exact ⟨_, by rw [← h]; exact pyGet_error_eq hα⟩
  | ok alpha =>
    simp only [hα] at h
    cases hβ : betaSel s args with
    | error e2 =>
      simp only [hβ] at h
      injection h with h
      exact ⟨_, by rw [← h]; exact betaSel_error_eq hβ⟩
    | ok beta =>
      simp only [hβ] at h
      cases hc : column0 (applyUnits piV args.units
          (f alpha beta (args.hv.getD D.hv) args.dalpha args.dbeta
            args.orientation args.work_func).2) with
      | error e2 =>
        simp only [hc] at h
        injection h with h
        exact ⟨_, by rw [← h]; exact column0_error_eq hc⟩
      | ok new_alpha =>
        simp only [hc] at h
        cases hset : pySet s.data_handler.axes args.alpha_axis new_alpha with
        | error e2 =>
          simp only [hset] at h
          injection h with h
          exact ⟨_, by rw [← h]; exact pySet_error_eq hset⟩
        | ok axs1 =>
          simp only [hset] at h
          cases hbw : betaWrite args.beta_axis (applyUnits piV args.units
              (f alpha beta (args.hv.getD D.hv) args.dalpha args.dbeta
                args.orientation args.work_func).1) axs1 with
          | error e2 =>
            simp only [hbw] at h
            injection h with h
            obtain ⟨msg, hmsg⟩ := betaWrite_error_eq hbw
            exact ⟨msg, by rw [← h]; exact hmsg⟩
          | ok axs2 =>
            simp only [hbw] at h
            cases hr : (resetFold (rolledAxes s) args.alpha_axis args.beta_axis
                [0, 1, 2] axs2).2 with
            | some e2 =>
              simp only [hr] at h
              injection h with h
              obtain ⟨axs', hfold⟩ :
                  ∃ axs', resetFold (rolledAxes s) args.alpha_axis args.beta_axis
                    [0, 1, 2] axs2 = (axs', some e2) :=
                ⟨_, by rw [Prod.ext_iff]; exact ⟨rfl, hr⟩⟩
              obtain ⟨msg, hmsg⟩ := resetFold_error_eq _ _ _ hfold
              exact ⟨msg, by rw [← h]; exact hmsg⟩
            | none =>
              simp only [hr] at h
              exact Except.noConfusion h

/-- A successful `load_data` stores the dataset; a failing one leaves the
    state untouched.  Either way `D.isSome` is preserved. -/
lemma load_data_D_isSome {dlLoad : Loader} {s : PluginState} {fn : String}
    (h : s.D.isSome) : ((load_data dlLoad s fn).1).D.isSome := by
  unfold load_data
  cases hl : dlLoad fn with
  | error e => exact h
  | ok D => rfl

/-- No plugin method removes a loaded dataset. -/
lemma Op.apply_D_isSome (op : Op) (s : PluginState) (h : s.D.isSome) :
    ((op.apply s)).D.isSome := by
  cases op with
  | loadDataOp l fn => exact load_data_D_isSome h
  | loadOp l fn => exact load_data_D_isSome h
  | openOp l fn => exact load_data_D_isSome h
  | a2kOp f piV args =>
    show ((a2k f piV s args).1).D.isSome
    rw [a2k_fst_D]
    exact h
  | mainNormOp g dim m => exact h
  | cutNormOp g dim m => exact h
  | normOp g dim m => exact h

lemma run_D_isSome : ∀ (ops : List Op) (s : PluginState), s.D.isSome →
    (run ops s).D.isSome := by
  intro ops
  induction ops with
  | nil => intro s h; exact h
  | cons op rest ih => intro s h; exact ih _ (Op.apply_D_isSome op s h)

/-! ### The claims -/

/-- C1 (counterexample): the claim that every transform method raises
    `DatasetError` before `load_data` is false.  On a concrete state with no
    dataset, `main_plot_normalize_per_segment` and
    `cut_plot_normalize_per_segment` succeed without raising, and
    `normalize_per_segment` raises `TypeError`; none of the three raises
    `DatasetError` (no variant calls `_check_for_arpes_data`). -/
theorem normalize_variants_unguarded_cex :
    exUnloaded.D = none ∧
    (main_plot_normalize_per_segment exSegNorm exUnloaded 0 false).2 = .ok () ∧
    (cut_plot_normalize_per_segment exSegNorm exUnloaded 0 false).2 = .ok () ∧
    (normalize_per_segment exSegNorm exUnloaded 0 false).2 =
      .error (.typeError ("int object is not iterable")) :=
  ⟨rfl, rfl, rfl, rfl⟩

/-- C1 (amended): before any successful `load_data` (no dataset stored),
    `a2k` raises `DatasetError` with exactly the fixed message and mutates
    nothing; the three normalization variants perform no dataset check:
    the two plot variants succeed and the stored-volume variant fails with
    `TypeError`, so none of them raises `DatasetError`. -/
theorem a2k_guard_dataset_error (f : AngleToK) (piV : Scalar) (s : PluginState)
    (args : A2kArgs) (g : SegNorm) (dim : Int) (m : Bool) (h : s.D = none) :
    a2k f piV s args = (s, .error (.datasetError _message)) ∧
    (main_plot_normalize_per_segment g s dim m).2 = .ok () ∧
    (cut_plot_normalize_per_segment g s dim m).2 = .ok () ∧
    (normalize_per_segment g s dim m).2 =
      .error (.typeError ("int object is not iterable")) := by
  refine ⟨?_, rfl, rfl, rfl⟩
  simp only [a2k, h]

theorem a2k_guard_dataset_error_witness :
    exUnloaded.D = none ∧
    (a2k exAngleToK 3 exUnloaded { alpha_axis := 0 }
        = (exUnloaded, .error (.datasetError _message)) ∧
      (main_plot_normalize_per_segment exSegNorm exUnloaded 0 false).2 = .ok () ∧
      (cut_plot_normalize_per_segment exSegNorm exUnloaded 0 false).2 = .ok () ∧
      (normalize_per_segment exSegNorm exUnloaded 0 false).2 =
        .error (.typeError ("int object is not iterable"))) :=
  ⟨rfl, a2k_guard_dataset_error exAngleToK 3 exUnloaded { alpha_axis := 0 }
    exSegNorm 0 false rfl⟩

/-- C2: the claim describes the intended behaviour (also stated in the
    method's own docstring), but the code has `for z in data.shape[-1]`,
    which iterates over a plain `int`: the call raises `TypeError` before
    any slice is normalized and before `set_data`, for every state and
    every argument — the stored dataset is never updated. -/
theorem normalize_per_segment_type_error (g : SegNorm) (s : PluginState)
    (dim : Int) (m : Bool) :
    normalize_per_segment g s dim m =
      (s, .error (.typeError ("int object is not iterable"))) := rfl

/-- C4: `load` and `open` are definitionally the same operation as
    `load_data`: same resulting plugin state (stored dataset, filename,
    host data-handler and main-window state) and same return value, for
    every loader behaviour, state and filename. -/
theorem load_open_alias (dlLoad : Loader) (s : PluginState) (fn : String) :
    load dlLoad s fn = load_data dlLoad s fn ∧
    «open» dlLoad s fn = load_data dlLoad s fn :=
  ⟨rfl, rfl⟩

/-- C8: `main_plot_normalize_per_segment` leaves the data handler (hence the
    stored dataset returned by `get_data`) untouched, as well as `D`, the
    filename and the cut plot; it replaces only the main plot's displayed
    image with the normalized image, emits no update signal (`emit=False`),
    and raises nothing. -/
theorem main_plot_normalize_frame (g : SegNorm) (s : PluginState) (dim : Int)
    (m : Bool) :
    (main_plot_normalize_per_segment g s dim m).1.data_handler = s.data_handler ∧
    (main_plot_normalize_per_segment g s dim m).1.data_handler.get_data
      = s.data_handler.get_data ∧
    (main_plot_normalize_per_segment g s dim m).1.D = s.D ∧
    (main_plot_normalize_per_segment g s dim m).1.filename = s.filename ∧
    (main_plot_normalize_per_segment g s dim m).1.main_window.main_plot.image_data
      = g s.main_window.main_plot.image_data dim ∧
    (main_plot_normalize_per_segment g s dim m).1.main_window.cut_plot
      = s.main_window.cut_plot ∧
    (main_plot_normalize_per_segment g s dim m).1.main_window.emitted
      = s.main_window.emitted ∧
    (main_plot_normalize_per_segment g s dim m).2 = .ok () :=
  ⟨rfl, rfl, rfl, rfl, rfl, rfl, rfl, rfl⟩

/-- C9: the `min` parameter of all three normalization variants is accepted
    but never read: two calls differing only in `min` return identical
    results and identical post-states. -/
theorem normalize_min_irrelevant (g : SegNorm) (s : PluginState) (dim : Int)
    (m₁ m₂ : Bool) :
    main_plot_normalize_per_segment g s dim m₁
      = main_plot_normalize_per_segment g s dim m₂ ∧
    cut_plot_normalize_per_segment g s dim m₁
      = cut_plot_normalize_per_segment g s dim m₂ ∧
    normalize_per_segment g s dim m₁ = normalize_per_segment g s dim m₂ :=
  ⟨rfl, rfl, rfl⟩

/-- C3: `a2k` with `units=0` returns the meshes of the angle-to-k transform
    unscaled (`applyUnits` with 0 is the identity); with any `units=U ≠ 0`
    (same state, same other arguments), the call again succeeds and the
    returned meshes equal the `units=0` meshes divided elementwise by
    `piV/U` (the modelled `np.pi/units`). -/
theorem a2k_units_rescale (f : AngleToK) (piV U : Scalar) (s : PluginState)
    (args : A2kArgs) (s₀ : PluginState) (KX KY : Mesh)
    (hU : U ≠ 0)
    (h0 : a2k f piV s { args with units := 0 } = (s₀, .ok (KX, KY))) :
    (∀ m : Mesh, applyUnits piV 0 m = m) ∧
    ∃ s₁, a2k f piV s { args with units := U } =
      (s₁, .ok (KX.map (List.map (fun x => x / (piV / U))),
                KY.map (List.map (fun x => x / (piV / U))))) := by
  refine ⟨applyUnits_zero piV, ?_⟩
  obtain ⟨D, alpha, beta, new_alpha, axs1, axs2, hD, hα, hβ, hKX, hKY, hc,
    hset, hbw, hr, hs0⟩ := a2k_ok_inversion h0
  have hα' : pyGet (rolledAxes s) args.alpha_axis = Except.ok alpha := hα
  have hβU : betaSel s { args with units := U } = Except.ok beta := hβ
  have hKX' : KX = (f alpha beta (args.hv.getD D.hv) args.dalpha args.dbeta
      args.orientation args.work_func).1 := by
    have h1 : KX = applyUnits piV 0 (f alpha beta (args.hv.getD D.hv)
        args.dalpha args.dbeta args.orientation args.work_func).1 := hKX
    rw [applyUnits_zero] at h1
    exact h1
  have hKY' : KY = (f alpha beta (args.hv.getD D.hv) args.dalpha args.dbeta
      args.orientation args.work_func).2 := by
    have h1 : KY = applyUnits piV 0 (f alpha beta (args.hv.getD D.hv)
        args.dalpha args.dbeta args.orientation args.work_func).2 := hKY
    rw [applyUnits_zero] at h1
    exact h1
  have hset' : pySet s.data_handler.axes args.alpha_axis new_alpha
      = Except.ok axs1 := hset
  have hbw' : betaWrite args.beta_axis KX axs1 = Except.ok axs2 := hbw
  have hr' : (resetFold (rolledAxes s) args.alpha_axis args.beta_axis
      [0, 1, 2] axs2).2 = none := hr
  obtain ⟨axs1U, hsetU, hlen1⟩ := pySet_ok_congr args.alpha_axis new_alpha
    (List.map (fun x => x / (piV / U)) new_alpha) rfl hset'
  obtain ⟨axs2U, hbwU, hlen2⟩ :=
    betaWrite_scaled (fun x => x / (piV / U)) hlen1 hbw'
  have hbwU' : betaWrite args.beta_axis
      ((f alpha beta (args.hv.getD D.hv) args.dalpha args.dbeta
        args.orientation args.work_func).1.map
          (List.map (fun x => x / (piV / U)))) axs1U = Except.ok axs2U := by
    rw [← hKX']; exact hbwU
  have hcU : column0
      ((f alpha beta (args.hv.getD D.hv) args.dalpha args.dbeta
        args.orientation args.work_func).2.map
          (List.map (fun x => x / (piV / U))))
      = Except.ok (List.map (fun x => x / (piV / U)) new_alpha) := by
    rw [← hKY', column0_map, hc]
    rfl
  have hrU : (resetFold (rolledAxes s) args.alpha_axis args.beta_axis
      [0, 1, 2] axs2U).2 = none := by
    rw [resetFold_congr [0, 1, 2] axs2U axs2 hlen2]
    exact hr'
  refine ⟨{ s with
    data_handler := { s.data_handler with
      axes := (resetFold (rolledAxes s) args.alpha_axis args.beta_axis
        [0, 1, 2] axs2U).1 },
    main_window := s.main_window.set_axes }, ?_⟩
  rw [hKX', hKY']
  simp only [a2k, hD]
  simp only [hα', hβU, applyUnits_ne piV U hU, hcU, hsetU, hbwU', hrU]

theorem a2k_units_rescale_witness :
    (2 : Scalar) ≠ 0 ∧
    a2k exAngleToK 3 exLoaded { alpha_axis := 0, units := 0 }
      = (exPost0, .ok ([[1, 2], [3, 4]], [[5, 6], [7, 8]])) ∧
    ((∀ m : Mesh, applyUnits 3 0 m = m) ∧
     ∃ s₁, a2k exAngleToK 3 exLoaded { alpha_axis := 0, units := 2 }
       = (s₁, .ok (([[1, 2], [3, 4]] : Mesh).map
             (List.map (fun x => x / ((3 : Scalar) / 2))),
           ([[5, 6], [7, 8]] : Mesh).map
             (List.map (fun x => x / ((3 : Scalar) / 2)))))) :=
  ⟨by norm_num, rfl,
    a2k_units_rescale exAngleToK 3 2 exLoaded { alpha_axis := 0 } exPost0
      [[1, 2], [3, 4]] [[5, 6], [7, 8]] (by norm_num) rfl⟩

/-- C5: after any successful `a2k` call, every logical axis index in
    `{0, 1, 2}` that equals neither `alpha_axis` nor `beta_axis` is reset to
    its original value in logical order (the rolled `original_axes` entry),
    and `original_axes` and `_roll_state` themselves are unchanged — hence
    after `a2k(alpha_axis=0, beta_axis=1)` followed by
    `a2k(alpha_axis=2, beta_axis=None)`, axes 0 and 1 hold their
    pre-first-call originals again. -/
theorem a2k_resets_unaffected_axes (f : AngleToK) (piV : Scalar)
    (s s' : PluginState) (args : A2kArgs) (KX KY : Mesh) (i : Int)
    (h : a2k f piV s args = (s', .ok (KX, KY)))
    (hi : i = 0 ∨ i = 1 ∨ i = 2)
    (hia : i ≠ args.alpha_axis)
    (hib : ∀ b, args.beta_axis = some b → i ≠ b) :
    s'.data_handler.original_axes = s.data_handler.original_axes ∧
    s'.data_handler.roll_state = s.data_handler.roll_state ∧
    pyGet s'.data_handler.axes i = pyGet (rolledAxes s) i := by
  obtain ⟨D, alpha, beta, new_alpha, axs1, axs2, hD, hα, hβ, hKX, hKY, hc,
    hset, hbw, hr, rfl⟩ := a2k_ok_inversion h
  refine ⟨rfl, rfl, ?_⟩
  have hskip : skipCond args.alpha_axis args.beta_axis i = false := by
    cases hb : args.beta_axis with
    | none =>
      simp only [skipCond, Bool.or_false, beq_eq_false_iff_ne]
      exact hia
    | some b =>
      simp only [skipCond, Bool.or_eq_false_iff, beq_eq_false_iff_ne]
      exact ⟨hia, hib b hb⟩
  have hmem : i ∈ ([0, 1, 2] : List Int) := by
    rcases hi with rfl | rfl | rfl <;> decide
  have hfold : resetFold (rolledAxes s) args.alpha_axis args.beta_axis
      [0, 1, 2] axs2
      = ((resetFold (rolledAxes s) args.alpha_axis args.beta_axis
          [0, 1, 2] axs2).1, none) :=
    Prod.ext_iff.mpr ⟨rfl, hr⟩
  exact resetFold_write [0, 1, 2] axs2 _ (by decide) (by decide) i hmem hskip hfold

theorem a2k_resets_unaffected_axes_witness :
    a2k exAngleToK 3 exLoaded { alpha_axis := 0 }
      = (exPost0, .ok ([[1, 2], [3, 4]], [[5, 6], [7, 8]])) ∧
    ((1 : Int) = 0 ∨ (1 : Int) = 1 ∨ (1 : Int) = 2) ∧
    (exPost0.data_handler.original_axes = exLoaded.data_handler.original_axes ∧
     exPost0.data_handler.roll_state = exLoaded.data_handler.roll_state ∧
     pyGet exPost0.data_handler.axes 1 = pyGet (rolledAxes exLoaded) 1) :=
  ⟨rfl, Or.inr (Or.inl rfl),
    a2k_resets_unaffected_axes exAngleToK 3 exLoaded exPost0 { alpha_axis := 0 }
      [[1, 2], [3, 4]] [[5, 6], [7, 8]] 1 rfl (Or.inr (Or.inl rfl)) (by decide)
      (fun b hb => Option.noConfusion hb)⟩

/-- C6 (counterexample): the claim fails when `beta_axis = alpha_axis`
    (the code performs no validation of the indices).  On a concrete call
    `a2k(alpha_axis=0, beta_axis=0)` that succeeds, the axes entry at index
    0 ends as row 0 of `KX` (`[1, 2]`), not column 0 of `KY` (`[5, 7]`):
    the later beta write overwrites the alpha write. -/
theorem a2k_axis_update_cex :
    (a2k exAngleToK 3 exLoaded { alpha_axis := 0, beta_axis := some 0 }).2
      = .ok ([[1, 2], [3, 4]], [[5, 6], [7, 8]]) ∧
    column0 [[5, 6], [7, 8]] = .ok [5, 7] ∧
    pyGet ((a2k exAngleToK 3 exLoaded
        { alpha_axis := 0, beta_axis := some 0 }).1).data_handler.axes 0
      = .ok [1, 2] ∧
    ([1, 2] : Arr) ≠ [5, 7] :=
  ⟨rfl, rfl, rfl, by decide⟩

/-- C6 (amended): in every successful `a2k` call whose axis indices are
    in range (`0 ≤ alpha_axis`, `0 ≤ beta_axis`), the coordinate array at
    `beta_axis` — exactly when `beta_axis` is given — ends as row 0 of the
    returned `KX`; the array at `alpha_axis` ends as column 0 of the
    returned `KY` provided `beta_axis ≠ alpha_axis` (when they coincide the
    beta write overwrites the alpha write). -/
theorem a2k_axis_update_amended (f : AngleToK) (piV : Scalar)
    (s s' : PluginState) (args : A2kArgs) (KX KY : Mesh)
    (h : a2k f piV s args = (s', .ok (KX, KY)))
    (ha : 0 ≤ args.alpha_axis)
    (hb0 : ∀ b, args.beta_axis = some b → 0 ≤ b) :
    (∀ b, args.beta_axis = some b →
      ∃ rb, pyGet KX 0 = .ok rb ∧ pyGet s'.data_handler.axes b = .ok rb) ∧
    (args.beta_axis ≠ some args.alpha_axis →
      ∃ ca, column0 KY = .ok ca ∧
        pyGet s'.data_handler.axes args.alpha_axis = .ok ca) := by
  obtain ⟨D, alpha, beta, new_alpha, axs1, axs2, hD, hα, hβ, hKX, hKY, hc,
    hset, hbw, hr, rfl⟩ := a2k_ok_inversion h
  have h0 : ∀ j ∈ ([0, 1, 2] : List Int), 0 ≤ j := by decide
  have hfold : resetFold (rolledAxes s) args.alpha_axis args.beta_axis
      [0, 1, 2] axs2
      = ((resetFold (rolledAxes s) args.alpha_axis args.beta_axis
          [0, 1, 2] axs2).1, none) :=
    Prod.ext_iff.mpr ⟨rfl, hr⟩
  constructor
  · intro b hbax
    rw [hbax] at hbw
    simp only [betaWrite] at hbw
    cases hg : pyGet KX 0 with
    | error e => simp only [hg] at hbw; exact Except.noConfusion hbw
    | ok rb =>
      simp only [hg] at hbw
      refine ⟨rb, rfl, ?_⟩
      have hbpos : 0 ≤ b := hb0 b hbax
      have hskipb : skipCond args.alpha_axis args.beta_axis b = true := by
        rw [hbax]; exact skipCond_right _ b
      have hpres : pyGet (resetFold (rolledAxes s) args.alpha_axis
          args.beta_axis [0, 1, 2] axs2).1 b = pyGet axs2 b :=
        resetFold_preserve [0, 1, 2] axs2 _ none h0 b hbpos
          (fun j _ hjf => ne_of_skipCond hskipb hjf) hfold
      show pyGet (resetFold (rolledAxes s) args.alpha_axis args.beta_axis
          [0, 1, 2] axs2).1 b = .ok rb
      rw [hpres]
      exact pyGet_pySet_self hbpos hbw
  · intro hne
    have hskipa : skipCond args.alpha_axis args.beta_axis args.alpha_axis
        = true := skipCond_left _ _
    have hpres : pyGet (resetFold (rolledAxes s) args.alpha_axis
        args.beta_axis [0, 1, 2] axs2).1 args.alpha_axis
        = pyGet axs2 args.alpha_axis :=
      resetFold_preserve [0, 1, 2] axs2 _ none h0 args.alpha_axis ha
        (fun j _ hjf => ne_of_skipCond hskipa hjf) hfold
    refine ⟨new_alpha, hc, ?_⟩
    show pyGet (resetFold (rolledAxes s) args.alpha_axis args.beta_axis
        [0, 1, 2] axs2).1 args.alpha_axis = .ok new_alpha
    rw [hpres]
    cases hbax : args.beta_axis with
    | none =>
      have haxs : axs2 = axs1 := by
        rw [hbax] at hbw
        simp only [betaWrite] at hbw
        injection hbw with hh
        exact hh.symm
      rw [haxs]
      exact pyGet_pySet_self ha hset
    | some b =>
      have hbne : b ≠ args.alpha_axis := fun hh => hne (by rw [hbax, hh])
      rw [hbax] at hbw
      simp only [betaWrite] at hbw
      cases hg : pyGet KX 0 with
      | error e => simp only [hg] at hbw; exact Except.noConfusion hbw
      | ok rb =>
        simp only [hg] at hbw
        rw [pyGet_pySet_ne ha (hb0 b hbax) (fun hh => hbne hh.symm) hbw]
        exact pyGet_pySet_self ha hset

theorem a2k_axis_update_amended_witness :
    a2k exAngleToK 3 exLoaded { alpha_axis := 0, beta_axis := some 1 }
      = (exPost01, .ok ([[1, 2], [3, 4]], [[5, 6], [7, 8]])) ∧
    ((∀ b, (some 1 : Option Int) = some b →
        ∃ rb, pyGet [[1, 2], [3, 4]] 0 = .ok rb ∧
          pyGet exPost01.data_handler.axes b = .ok rb) ∧
      ((some 1 : Option Int) ≠ some 0 →
        ∃ ca, column0 [[5, 6], [7, 8]] = .ok ca ∧
          pyGet exPost01.data_handler.axes 0 = .ok ca)) :=
  ⟨rfl, a2k_axis_update_amended exAngleToK 3 exLoaded exPost01
    { alpha_axis := 0, beta_axis := some 1 } [[1, 2], [3, 4]] [[5, 6], [7, 8]]
    rfl (by decide)
    (fun b hb => by injection hb with hb; rw [← hb]; decide)⟩

/-- C7: the alpha array handed to the angle-to-k transform is the entry at
    `alpha_axis` of the host's original axes after applying the rotation
    offset (`rolledAxes`), and the beta array is the entry at `beta_axis`
    when given, else the placeholder `[0]` (`betaSel`): two transforms that
    agree on exactly these arguments make `a2k` produce identical results
    and identical states, so `a2k` consults the transform only there. -/
theorem a2k_transform_inputs (f g : AngleToK) (piV : Scalar) (s : PluginState)
    (args : A2kArgs) (D : Dataset) (alpha beta : Arr)
    (hD : s.D = some D)
    (hα : pyGet (rolledAxes s) args.alpha_axis = .ok alpha)
    (hβ : betaSel s args = .ok beta)
    (hfg : f alpha beta (args.hv.getD D.hv) args.dalpha args.dbeta
        args.orientation args.work_func
      = g alpha beta (args.hv.getD D.hv) args.dalpha args.dbeta
        args.orientation args.work_func) :
    a2k f piV s args = a2k g piV s args := by
  simp only [a2k, hD, hα, hβ]
  rw [hfg]

theorem a2k_transform_inputs_witness :
    exLoaded.D = some exDataset ∧
    pyGet (rolledAxes exLoaded) 0 = .ok [10, 11] ∧
    betaSel exLoaded { alpha_axis := 0 } = .ok [0] ∧
    exAngleToK [10, 11] [0] 21 0 0 "horizontal" 4
      = exAngleToK2 [10, 11] [0] 21 0 0 "horizontal" 4 ∧
    a2k exAngleToK 3 exLoaded { alpha_axis := 0 }
      = a2k exAngleToK2 3 exLoaded { alpha_axis := 0 } :=
  ⟨rfl, rfl, rfl, by decide,
    a2k_transform_inputs exAngleToK exAngleToK2 3 exLoaded { alpha_axis := 0 }
      exDataset [10, 11] [0] rfl rfl rfl (by decide)⟩

/-- C10: once a dataset is stored (`D.isSome`), no sequence of plugin method
    invocations removes it — after any run, the guard
    `_check_for_arpes_data` succeeds and `a2k` can no longer fail with a
    `DatasetError` (its remaining failure modes are IndexErrors from axis
    indexing). -/
theorem loaded_dataset_persists (s : PluginState) (ops : List Op)
    (f : AngleToK) (piV : Scalar) (args : A2kArgs) (msg : String)
    (h : s.D.isSome) :
    (run ops s).D.isSome = true ∧
    _check_for_arpes_data (run ops s) = .ok () ∧
    (a2k f piV (run ops s) args).2 ≠ .error (.datasetError msg) := by
  have hrun := run_D_isSome ops s h
  refine ⟨hrun, ?_, ?_⟩
  · cases hD : (run ops s).D with
    | none => rw [hD] at hrun; exact Bool.noConfusion hrun
    | some D => simp only [_check_for_arpes_data, hD]
  · intro hcon
    cases hD : (run ops s).D with
    | none => rw [hD] at hrun; exact Bool.noConfusion hrun
    | some D =>
      obtain ⟨msg2, hmsg⟩ := a2k_error_eq hD hcon
      exact PyErr.noConfusion hmsg

theorem loaded_dataset_persists_witness :
    exLoaded.D.isSome = true ∧
    ((run exOps exLoaded).D.isSome = true ∧
     _check_for_arpes_data (run exOps exLoaded) = .ok () ∧
     (a2k exAngleToK 3 (run exOps exLoaded) { alpha_axis := 0 }).2
       ≠ .error (.datasetError _message)) :=
  ⟨rfl, loaded_dataset_persists exLoaded exOps exAngleToK 3
    { alpha_axis := 0 } _message rfl⟩

end DsArpes
